import Mathlib

/-!
A shallow embedding of `src/app.js`: an Express facade that validates an
image URL and forwards each request to one remote operation of an external
computer-vision service.  Request bodies, HTTP responses, the
`checkImageUrl` middleware, the `processError` normalizer, the seven POST
handlers and the GET root handler are translated into pure functions.  The
external collaborator (`visionProcessor`) and the platform URL constructor
(`new URL`) are parameters of the embedding, and every handler returns,
next to its response, the list of remote calls it issued, so that claims
about the collaborator being invoked (or not) can be stated.
-/

namespace VisionApp

/-- JSON values, the payloads exchanged by the service. -/
inductive Json where
  | null : Json
  | bool : Bool → Json
  | num : Int → Json
  | str : String → Json
  | arr : List Json → Json
  | obj : List (String × Json) → Json

/-- Last-binding lookup in an object's field list (a JS object built from
JSON keeps the last duplicate key). -/
def lookupLast (fs : List (String × Json)) (k : String) : Option Json :=
  fs.foldl (fun acc p => if p.1 = k then some p.2 else acc) none

/-- JS property access `v.k` as the projection handlers use it on a
collaborator result; `none` stands for `undefined`.  (In JS, access on
`null` would raise; the handlers only project result values, and the
claims about missing fields concern object results.) -/
def jsonGet (v : Json) (k : String) : Option Json :=
  match v with
  | .obj fs => lookupLast fs k
  | _ => none

/-- An HTTP response: the status set by the handler and the JSON body
passed to `res.json` (`none` models `res.json(undefined)`, which sends an
empty body). -/
structure Response where
  status : Nat
  body : Option Json

/-- The request body `{ imageUrl: string }` (spec §3): `none` models an
absent `imageUrl` field. -/
structure AnalysisRequest where
  imageUrl : Option String

/-- The value of `req.body.imageUrl` as the handlers read it after
validation (the validator guarantees the field is present, so the default
is never reached on any path a handler sees). -/
def bodyUrl (req : AnalysisRequest) : String :=
  req.imageUrl.getD ""

/-- Outcome of the `checkImageUrl` middleware: either an immediate
response, or `next()` was called. -/
inductive ValidationOutcome where
  | reject : Response → ValidationOutcome
  | pass : ValidationOutcome

/-- The `checkImageUrl` middleware of `src/app.js` (lines 16-27).
`parseURL s = true` models the platform constructor `new URL(s)`
succeeding; `!imageUrl` is true exactly for an absent or empty string
field in this model's request bodies. -/
def checkImageUrl (parseURL : String → Bool) (req : AnalysisRequest) :
    ValidationOutcome :=
  match req.imageUrl with
  | none => .reject ⟨400, some (.obj [("error", .str "Image URL is required")])⟩
  | some u =>
    if u = "" then
      .reject ⟨400, some (.obj [("error", .str "Image URL is required")])⟩
    else if parseURL u then
      .pass
    else
      .reject ⟨400, some (.obj [("error", .str "Invalid URL format")])⟩

/-- A failure surfaced by the external collaborator; `message` is the
error's `message` property (`none`: no such property). -/
structure RemoteError where
  message : Option String

/-- The JS expression `err.message || 'An error occurred during image
analysis'` (`undefined` and the empty string are falsy). -/
def errorMessageText (m : Option String) : String :=
  match m with
  | some s => if s = "" then "An error occurred during image analysis" else s
  | none => "An error occurred during image analysis"

/-- The `processError` helper of `src/app.js` (lines 29-34). -/
def processError (err : RemoteError) : Response :=
  ⟨500, some (.obj [("error", .str (errorMessageText err.message))])⟩

/-- One remote call to the collaborator, with all arguments the handlers
pass (`analyzeImage` options carry the `visualFeatures` list and the
optional `details` list). -/
inductive RemoteCall where
  | analyzeImage : String → List String → Option (List String) → RemoteCall
  | detectObjects : String → RemoteCall
  | describeImage : String → RemoteCall
  | recognizePrintedText : Bool → String → RemoteCall

/-- The image URL argument of a remote call. -/
def callUrl : RemoteCall → String
  | .analyzeImage u _ _ => u
  | .detectObjects u => u
  | .describeImage u => u
  | .recognizePrintedText _ u => u

/-- The external collaborator (`visionProcessor`): each call either
resolves with a JSON result or rejects with an error. -/
structure Collaborator where
  call : RemoteCall → Except RemoteError Json

/-- The `analysisFeatures` list of the analyze handler (lines 86-96). -/
def analysisFeatures : List String :=
  ["ImageType", "Faces", "Adult", "Categories", "Color", "Tags",
   "Description", "Objects", "Brands"]

/-- The `specialFeatures` list of the analyze handler (line 97). -/
def specialFeatures : List String :=
  ["Landmarks"]

/-- The `/api/vision/analyze` handler body (lines 85-108). -/
def analyzeHandler (c : Collaborator) (req : AnalysisRequest) :
    Response × List RemoteCall :=
  match c.call (.analyzeImage (bodyUrl req) analysisFeatures (some specialFeatures)) with
  | .ok analysis =>
      (⟨200, some analysis⟩,
       [.analyzeImage (bodyUrl req) analysisFeatures (some specialFeatures)])
  | .error err =>
      (processError err,
       [.analyzeImage (bodyUrl req) analysisFeatures (some specialFeatures)])

/-- The `/api/vision/tags` handler body (lines 136-145): one composite
call restricted to `Tags`, responding with `analysis.tags`. -/
def tagsHandler (c : Collaborator) (req : AnalysisRequest) :
    Response × List RemoteCall :=
  match c.call (.analyzeImage (bodyUrl req) ["Tags"] none) with
  | .ok analysis =>
      (⟨200, jsonGet analysis "tags"⟩, [.analyzeImage (bodyUrl req) ["Tags"] none])
  | .error err =>
      (processError err, [.analyzeImage (bodyUrl req) ["Tags"] none])

/-- The `/api/vision/objects` handler body (lines 173-180). -/
def objectsHandler (c : Collaborator) (req : AnalysisRequest) :
    Response × List RemoteCall :=
  match c.call (.detectObjects (bodyUrl req)) with
  | .ok analysis => (⟨200, some analysis⟩, [.detectObjects (bodyUrl req)])
  | .error err => (processError err, [.detectObjects (bodyUrl req)])

/-- The `/api/vision/describe` handler body (lines 208-215). -/
def describeHandler (c : Collaborator) (req : AnalysisRequest) :
    Response × List RemoteCall :=
  match c.call (.describeImage (bodyUrl req)) with
  | .ok analysis => (⟨200, some analysis⟩, [.describeImage (bodyUrl req)])
  | .error err => (processError err, [.describeImage (bodyUrl req)])

/-- The `/api/vision/text` handler body (lines 243-250):
`recognizePrintedText(false, url)`. -/
def textHandler (c : Collaborator) (req : AnalysisRequest) :
    Response × List RemoteCall :=
  match c.call (.recognizePrintedText false (bodyUrl req)) with
  | .ok analysis => (⟨200, some analysis⟩, [.recognizePrintedText false (bodyUrl req)])
  | .error err => (processError err, [.recognizePrintedText false (bodyUrl req)])

/-- The `/api/vision/faces` handler body (lines 278-287): one composite
call restricted to `Faces`, responding with `analysis.faces`. -/
def facesHandler (c : Collaborator) (req : AnalysisRequest) :
    Response × List RemoteCall :=
  match c.call (.analyzeImage (bodyUrl req) ["Faces"] none) with
  | .ok analysis =>
      (⟨200, jsonGet analysis "faces"⟩, [.analyzeImage (bodyUrl req) ["Faces"] none])
  | .error err =>
      (processError err, [.analyzeImage (bodyUrl req) ["Faces"] none])

/-- The `/api/vision/colors` handler body (lines 315-324): one composite
call restricted to `Color`, responding with `analysis.color`. -/
def colorsHandler (c : Collaborator) (req : AnalysisRequest) :
    Response × List RemoteCall :=
  match c.call (.analyzeImage (bodyUrl req) ["Color"] none) with
  | .ok analysis =>
      (⟨200, jsonGet analysis "color"⟩, [.analyzeImage (bodyUrl req) ["Color"] none])
  | .error err =>
      (processError err, [.analyzeImage (bodyUrl req) ["Color"] none])

/-- The seven POST routes. -/
inductive Endpoint where
  | analyze | tags | objects | describe | text | faces | colors

/-- Route dispatch: the handler body registered for each POST route. -/
def endpointHandler : Endpoint → Collaborator → AnalysisRequest →
    Response × List RemoteCall
  | .analyze => analyzeHandler
  | .tags => tagsHandler
  | .objects => objectsHandler
  | .describe => describeHandler
  | .text => textHandler
  | .faces => facesHandler
  | .colors => colorsHandler

/-- The single remote call each endpoint's handler issues for a given
image URL. -/
def callOf : Endpoint → String → RemoteCall
  | .analyze, u => .analyzeImage u analysisFeatures (some specialFeatures)
  | .tags, u => .analyzeImage u ["Tags"] none
  | .objects, u => .detectObjects u
  | .describe, u => .describeImage u
  | .text, u => .recognizePrintedText false u
  | .faces, u => .analyzeImage u ["Faces"] none
  | .colors, u => .analyzeImage u ["Color"] none

/-- A complete POST request cycle: `checkImageUrl` runs first; only when
it calls `next()` does the endpoint's handler body run, on the same
request object. -/
def postVision (parseURL : String → Bool) (c : Collaborator) (e : Endpoint)
    (req : AnalysisRequest) : Response × List RemoteCall :=
  match checkImageUrl parseURL req with
  | .reject r => (r, [])
  | .pass => endpointHandler e c req

/-- The `error` field of a response body, when the body is an object
holding one. -/
def bodyErrorField (r : Response) : Option Json :=
  match r.body with
  | some b => jsonGet b "error"
  | none => none

/-- Modelled from the spec: `checkImageUrl` delegates URL syntax to the
platform constructor `new URL`, which is not part of this repository; per
the spec (§3, §4.1), a string is a syntactically valid absolute URL
exactly when it carries a scheme and a host.  `splitSchemeRest` splits at
the first `:` when it is followed by `//`, yielding the scheme and the
remainder after the separator. -/
def splitSchemeRest : List Char → Option (List Char × List Char)
  | [] => none
  | c :: cs =>
    if c = ':' then
      match cs with
      | '/' :: '/' :: rest => some ([], rest)
      | _ => none
    else
      match splitSchemeRest cs with
      | some (scheme, rest) => some (c :: scheme, rest)
      | none => none

/-- Modelled from the spec: validity per §3 and §4.1 means a non-empty
alphabetic scheme, the `://` separator, and a non-empty host (the
characters up to the first `/`, `?` or `#`). -/
def isValidImageUrl (s : String) : Bool :=
  match splitSchemeRest s.toList with
  | some (scheme, rest) =>
      !scheme.isEmpty && scheme.all Char.isAlpha &&
        !(rest.takeWhile (fun ch => ch != '/' && ch != '?' && ch != '#')).isEmpty
  | none => false

/-- The `error` message string of a response, when there is one. -/
def errorText (r : Response) : Option String :=
  match bodyErrorField r with
  | some (.str s) => some s
  | _ => none

/-- The process configuration read from the environment: `API_BASE_URL`
and `PORT` (`none` models an unset variable). -/
structure Config where
  apiBaseUrl : Option String
  port : Option String

/-- The JS pattern `process.env.X || 'default'` (an unset variable and the
empty string are falsy). -/
def envOrDefault : Option String → String → String
  | some s, d => if s = "" then d else s
  | none, d => d

/-- The GET `/` handler of `src/app.js` (lines 327-342); the inbound
request carries no data the handler reads, so the response depends only on
the configuration. -/
def homeResponse (cfg : Config) : Response :=
  ⟨200, some (.obj
    [("message", .str "Welcome to Azure AI Image Analysis API"),
     ("documentation",
      .str (envOrDefault cfg.apiBaseUrl "http://157.230.209.216:5000/" ++ "/api-docs")),
     ("note", .str "All endpoints need to be tested using Postman."),
     ("endpoints", .obj
       [("analyze", .str "/api/vision/analyze"),
        ("tags", .str "/api/vision/tags"),
        ("objects", .str "/api/vision/objects"),
        ("describe", .str "/api/vision/describe"),
        ("text", .str "/api/vision/text"),
        ("faces", .str "/api/vision/faces"),
        ("colors", .str "/api/vision/colors")])])⟩

/-- Sample collaborator result used to instantiate theorems at concrete
inputs. -/
def sampleResult : Json :=
  .obj [("tags", .arr [.str "cat"]),
        ("faces", .arr []),
        ("color", .obj [("dominantColorBackground", .str "White")])]

/-- A collaborator whose every call resolves with `sampleResult`. -/
def okCollab : Collaborator := ⟨fun _ => .ok sampleResult⟩

/-- A collaborator whose every call resolves with an empty object. -/
def emptyCollab : Collaborator := ⟨fun _ => .ok (.obj [])⟩

/-- A collaborator whose every call rejects. -/
def failCollab : Collaborator := ⟨fun _ => .error ⟨some "boom"⟩⟩

/-- Helper lemma: `checkImageUrl` calls `next()` exactly when the field is
a non-empty string the platform parser accepts. -/
theorem checkImageUrl_pass (parseURL : String → Bool) (u : String)
    (hne : u ≠ "") (hok : parseURL u = true) :
    checkImageUrl parseURL ⟨some u⟩ = .pass := by
  simp [checkImageUrl, hne, hok]

/-- Helper lemma: a rejected request produces the middleware's response
and an empty call trace. -/
theorem postVision_reject (parseURL : String → Bool) (c : Collaborator)
    (e : Endpoint) (req : AnalysisRequest) (r : Response)
    (h : checkImageUrl parseURL req = .reject r) :
    postVision parseURL c e req = (r, []) := by
  unfold postVision
  rw [h]

/-- Helper lemma: a validated request is handled by the endpoint's
handler body on the unchanged request. -/
theorem postVision_pass (parseURL : String → Bool) (c : Collaborator)
    (e : Endpoint) (req : AnalysisRequest)
    (h : checkImageUrl parseURL req = .pass) :
    postVision parseURL c e req = endpointHandler e c req := by
  unfold postVision
  rw [h]

/-- Helper lemma: every handler body issues exactly the one remote call
of its endpoint, on success and on failure alike. -/
theorem endpointHandler_trace (e : Endpoint) (c : Collaborator)
    (req : AnalysisRequest) :
    (endpointHandler e c req).2 = [callOf e (bodyUrl req)] := by
  cases e <;>
    simp only [endpointHandler, callOf, analyzeHandler, tagsHandler,
      objectsHandler, describeHandler, textHandler, facesHandler,
      colorsHandler] <;>
    split <;> rfl

/-- Helper lemma: the URL argument of each endpoint's remote call is the
URL it was built from. -/
theorem callUrl_callOf (e : Endpoint) (u : String) :
    callUrl (callOf e u) = u := by
  cases e <;> rfl

/-- C1: a request body whose `imageUrl` is absent or the empty string is
answered with HTTP 400 and a JSON body carrying an `error` field, on every
endpoint, and the collaborator is never invoked. -/
theorem C1_missing_or_empty_url_rejected (parseURL : String → Bool)
    (c : Collaborator) (e : Endpoint) (req : AnalysisRequest)
    (h : req.imageUrl = none ∨ req.imageUrl = some "") :
    (postVision parseURL c e req).1.status = 400 ∧
    (bodyErrorField (postVision parseURL c e req).1).isSome = true ∧
    (postVision parseURL c e req).2 = [] := by
  obtain ⟨u⟩ := req
  rcases h with h | h <;> simp only at h <;> subst h <;> exact ⟨rfl, rfl, rfl⟩

/-- C1 instantiated: the empty-body request on `/api/vision/tags`. -/
theorem C1_missing_or_empty_url_rejected_witness :
    ((⟨none⟩ : AnalysisRequest).imageUrl = none ∨
      (⟨none⟩ : AnalysisRequest).imageUrl = some "") ∧
    ((postVision (fun _ => true) okCollab .tags ⟨none⟩).1.status = 400 ∧
     (bodyErrorField (postVision (fun _ => true) okCollab .tags ⟨none⟩).1).isSome = true ∧
     (postVision (fun _ => true) okCollab .tags ⟨none⟩).2 = []) :=
  ⟨Or.inl rfl,
   C1_missing_or_empty_url_rejected (fun _ => true) okCollab .tags ⟨none⟩ (Or.inl rfl)⟩

/-- C2: a present, non-empty `imageUrl` that is not a syntactically valid
absolute URL (no scheme or no host) is answered with the malformed-URL 400
response on every endpoint, and the collaborator is never invoked. -/
theorem C2_malformed_url_rejected (c : Collaborator) (e : Endpoint)
    (u : String) (hne : u ≠ "") (hbad : isValidImageUrl u = false) :
    (postVision isValidImageUrl c e ⟨some u⟩).1 =
      ⟨400, some (.obj [("error", .str "Invalid URL format")])⟩ ∧
    (postVision isValidImageUrl c e ⟨some u⟩).2 = [] := by
  have h : checkImageUrl isValidImageUrl ⟨some u⟩ =
      .reject ⟨400, some (.obj [("error", .str "Invalid URL format")])⟩ := by
    simp [checkImageUrl, hne, hbad]
  rw [postVision_reject _ _ _ _ _ h]
  exact ⟨rfl, rfl⟩

/-- C2 instantiated: the body `{ imageUrl: "not a url" }` on
`/api/vision/analyze`. -/
theorem C2_malformed_url_rejected_witness :
    ("not a url" ≠ "" ∧ isValidImageUrl "not a url" = false) ∧
    ((postVision isValidImageUrl okCollab .analyze ⟨some "not a url"⟩).1 =
      ⟨400, some (.obj [("error", .str "Invalid URL format")])⟩ ∧
     (postVision isValidImageUrl okCollab .analyze ⟨some "not a url"⟩).2 = []) :=
  ⟨⟨by decide, by decide⟩,
   C2_malformed_url_rejected okCollab .analyze "not a url" (by decide) (by decide)⟩

/-- C3: for a valid URL, when the restricted composite calls succeed with
a result carrying `tags`, `faces` and `color` fields, the three projection
endpoints answer 200 with exactly that field's value. -/
theorem C3_projection_endpoints (parseURL : String → Bool) (c : Collaborator)
    (u : String) (r tg fc col : Json)
    (hne : u ≠ "") (hok : parseURL u = true)
    (ht : c.call (.analyzeImage u ["Tags"] none) = .ok r)
    (hf : c.call (.analyzeImage u ["Faces"] none) = .ok r)
    (hc : c.call (.analyzeImage u ["Color"] none) = .ok r)
    (htg : jsonGet r "tags" = some tg)
    (hfc : jsonGet r "faces" = some fc)
    (hcol : jsonGet r "color" = some col) :
    (postVision parseURL c .tags ⟨some u⟩).1 = ⟨200, some tg⟩ ∧
    (postVision parseURL c .faces ⟨some u⟩).1 = ⟨200, some fc⟩ ∧
    (postVision parseURL c .colors ⟨some u⟩).1 = ⟨200, some col⟩ := by
  have hp := checkImageUrl_pass parseURL u hne hok
  refine ⟨?_, ?_, ?_⟩ <;> rw [postVision_pass _ _ _ _ hp]
  · simp [endpointHandler, tagsHandler, bodyUrl, ht, htg]
  · simp [endpointHandler, facesHandler, bodyUrl, hf, hfc]
  · simp [endpointHandler, colorsHandler, bodyUrl, hc, hcol]

/-- C3 instantiated: `okCollab` answers every call with `sampleResult`. -/
theorem C3_projection_endpoints_witness :
    (postVision (fun _ => true) okCollab .tags ⟨some "http://img"⟩).1 =
      ⟨200, some (.arr [.str "cat"])⟩ ∧
    (postVision (fun _ => true) okCollab .faces ⟨some "http://img"⟩).1 =
      ⟨200, some (.arr [])⟩ ∧
    (postVision (fun _ => true) okCollab .colors ⟨some "http://img"⟩).1 =
      ⟨200, some (.obj [("dominantColorBackground", .str "White")])⟩ :=
  C3_projection_endpoints (fun _ => true) okCollab "http://img" sampleResult
    (.arr [.str "cat"]) (.arr []) (.obj [("dominantColorBackground", .str "White")])
    (by decide) rfl rfl rfl rfl rfl rfl rfl

/-- C4: for a valid URL, `/api/vision/analyze` issues exactly one
composite call with the nine-feature visual set and the `Landmarks`
detail, and on success answers 200 with the full result unmodified. -/
theorem C4_analyze_single_composite_call (parseURL : String → Bool)
    (c : Collaborator) (u : String) (hne : u ≠ "") (hok : parseURL u = true) :
    (postVision parseURL c .analyze ⟨some u⟩).2 =
      [RemoteCall.analyzeImage u
        ["ImageType", "Faces", "Adult", "Categories", "Color", "Tags",
         "Description", "Objects", "Brands"] (some ["Landmarks"])] ∧
    ∀ r : Json,
      c.call (.analyzeImage u analysisFeatures (some specialFeatures)) = .ok r →
      (postVision parseURL c .analyze ⟨some u⟩).1 = ⟨200, some r⟩ := by
  have hp := checkImageUrl_pass parseURL u hne hok
  rw [postVision_pass _ _ _ _ hp]
  constructor
  · rw [endpointHandler_trace]
    rfl
  · intro r hr
    simp [endpointHandler, analyzeHandler, bodyUrl, hr]

/-- C4 instantiated: `okCollab` on the URL `http://img`. -/
theorem C4_analyze_single_composite_call_witness :
    (postVision (fun _ => true) okCollab .analyze ⟨some "http://img"⟩).2 =
      [RemoteCall.analyzeImage "http://img"
        ["ImageType", "Faces", "Adult", "Categories", "Color", "Tags",
         "Description", "Objects", "Brands"] (some ["Landmarks"])] ∧
    (postVision (fun _ => true) okCollab .analyze ⟨some "http://img"⟩).1 =
      ⟨200, some sampleResult⟩ :=
  ⟨(C4_analyze_single_composite_call (fun _ => true) okCollab "http://img"
      (by decide) rfl).1,
   (C4_analyze_single_composite_call (fun _ => true) okCollab "http://img"
      (by decide) rfl).2 sampleResult rfl⟩

/-- C5: for a valid URL, when the endpoint's remote call rejects, the
response is HTTP 500 with an `error` field holding the failure's message
when one is present (non-empty), and the generic fallback otherwise. -/
theorem C5_collaborator_failure_maps_to_500 (parseURL : String → Bool)
    (c : Collaborator) (e : Endpoint) (u : String) (err : RemoteError)
    (hne : u ≠ "") (hok : parseURL u = true)
    (hfail : c.call (callOf e u) = .error err) :
    (postVision parseURL c e ⟨some u⟩).1 =
      ⟨500, some (.obj [("error", .str (errorMessageText err.message))])⟩ := by
  have hp := checkImageUrl_pass parseURL u hne hok
  rw [postVision_pass _ _ _ _ hp]
  cases e <;>
    simp only [callOf] at hfail <;>
    simp [endpointHandler, analyzeHandler, tagsHandler, objectsHandler,
      describeHandler, textHandler, facesHandler, colorsHandler, bodyUrl,
      hfail, processError]

/-- C5 instantiated: `failCollab` rejects with message `boom` on
`/api/vision/describe`. -/
theorem C5_collaborator_failure_maps_to_500_witness :
    (postVision (fun _ => true) failCollab .describe ⟨some "http://img"⟩).1 =
      ⟨500, some (.obj [("error", .str "boom")])⟩ :=
  C5_collaborator_failure_maps_to_500 (fun _ => true) failCollab .describe
    "http://img" ⟨some "boom"⟩ (by decide) rfl rfl

/-- C6: for a valid URL, `/api/vision/objects`, `/api/vision/describe`
and `/api/vision/text` each issue exactly their dedicated remote call
(object detection, description, printed-text recognition with the `false`
flag), and on success answer 200 with the full result unmodified. -/
theorem C6_dedicated_operations (parseURL : String → Bool) (c : Collaborator)
    (u : String) (hne : u ≠ "") (hok : parseURL u = true) :
    ((postVision parseURL c .objects ⟨some u⟩).2 = [RemoteCall.detectObjects u] ∧
      ∀ r : Json, c.call (.detectObjects u) = .ok r →
        (postVision parseURL c .objects ⟨some u⟩).1 = ⟨200, some r⟩) ∧
    ((postVision parseURL c .describe ⟨some u⟩).2 = [RemoteCall.describeImage u] ∧
      ∀ r : Json, c.call (.describeImage u) = .ok r →
        (postVision parseURL c .describe ⟨some u⟩).1 = ⟨200, some r⟩) ∧
    ((postVision parseURL c .text ⟨some u⟩).2 =
        [RemoteCall.recognizePrintedText false u] ∧
      ∀ r : Json, c.call (.recognizePrintedText false u) = .ok r →
        (postVision parseURL c .text ⟨some u⟩).1 = ⟨200, some r⟩) := by
  have hp := checkImageUrl_pass parseURL u hne hok
  refine ⟨⟨?_, ?_⟩, ⟨?_, ?_⟩, ⟨?_, ?_⟩⟩ <;> rw [postVision_pass _ _ _ _ hp]
  · rw [endpointHandler_trace]; rfl
  · intro r hr; simp [endpointHandler, objectsHandler, bodyUrl, hr]
  · rw [endpointHandler_trace]; rfl
  · intro r hr; simp [endpointHandler, describeHandler, bodyUrl, hr]
  · rw [endpointHandler_trace]; rfl
  · intro r hr; simp [endpointHandler, textHandler, bodyUrl, hr]

/-- C6 instantiated: `okCollab` on the URL `http://img`. -/
theorem C6_dedicated_operations_witness :
    ((postVision (fun _ => true) okCollab .objects ⟨some "http://img"⟩).2 =
        [RemoteCall.detectObjects "http://img"] ∧
      (postVision (fun _ => true) okCollab .objects ⟨some "http://img"⟩).1 =
        ⟨200, some sampleResult⟩) ∧
    ((postVision (fun _ => true) okCollab .describe ⟨some "http://img"⟩).2 =
        [RemoteCall.describeImage "http://img"] ∧
      (postVision (fun _ => true) okCollab .describe ⟨some "http://img"⟩).1 =
        ⟨200, some sampleResult⟩) ∧
    ((postVision (fun _ => true) okCollab .text ⟨some "http://img"⟩).2 =
        [RemoteCall.recognizePrintedText false "http://img"] ∧
      (postVision (fun _ => true) okCollab .text ⟨some "http://img"⟩).1 =
        ⟨200, some sampleResult⟩) :=
  ⟨⟨(C6_dedicated_operations (fun _ => true) okCollab "http://img"
       (by decide) rfl).1.1,
    (C6_dedicated_operations (fun _ => true) okCollab "http://img"
       (by decide) rfl).1.2 sampleResult rfl⟩,
   ⟨(C6_dedicated_operations (fun _ => true) okCollab "http://img"
       (by decide) rfl).2.1.1,
    (C6_dedicated_operations (fun _ => true) okCollab "http://img"
       (by decide) rfl).2.1.2 sampleResult rfl⟩,
   ⟨(C6_dedicated_operations (fun _ => true) okCollab "http://img"
       (by decide) rfl).2.2.1,
    (C6_dedicated_operations (fun _ => true) okCollab "http://img"
       (by decide) rfl).2.2.2 sampleResult rfl⟩⟩

/-- C7: for every configuration state, GET `/` answers 200 with exactly
the keys `message`, `documentation`, `note` and `endpoints`, the latter
holding exactly the seven route paths. -/
theorem C7_root_metadata (cfg : Config) :
    ∃ doc : String, homeResponse cfg =
      ⟨200, some (.obj
        [("message", .str "Welcome to Azure AI Image Analysis API"),
         ("documentation", .str doc),
         ("note", .str "All endpoints need to be tested using Postman."),
         ("endpoints", .obj
           [("analyze", .str "/api/vision/analyze"),
            ("tags", .str "/api/vision/tags"),
            ("objects", .str "/api/vision/objects"),
            ("describe", .str "/api/vision/describe"),
            ("text", .str "/api/vision/text"),
            ("faces", .str "/api/vision/faces"),
            ("colors", .str "/api/vision/colors")])])⟩ :=
  ⟨envOrDefault cfg.apiBaseUrl "http://157.230.209.216:5000/" ++ "/api-docs", rfl⟩

/-- C8: when `checkImageUrl` passes, the cycle is exactly the endpoint's
handler body applied to the unchanged request (the validator, a pure
function, contributes no calls and no mutation), and every remote call
issued carries the very URL that was validated. -/
theorem C8_validator_forwards_request_unchanged (parseURL : String → Bool)
    (c : Collaborator) (e : Endpoint) (req : AnalysisRequest)
    (hpass : checkImageUrl parseURL req = .pass) :
    postVision parseURL c e req = endpointHandler e c req ∧
    ∀ u, req.imageUrl = some u →
      ∀ call ∈ (postVision parseURL c e req).2, callUrl call = u := by
  refine ⟨postVision_pass _ _ _ _ hpass, ?_⟩
  intro u hu call hcall
  rw [postVision_pass _ _ _ _ hpass, endpointHandler_trace] at hcall
  simp only [List.mem_singleton] at hcall
  subst hcall
  have hb : bodyUrl req = u := by
    simp [bodyUrl, hu]
  rw [hb, callUrl_callOf]

/-- C8 instantiated: the validated request on `/api/vision/tags`. -/
theorem C8_validator_forwards_request_unchanged_witness :
    postVision (fun _ => true) okCollab .tags ⟨some "http://img"⟩ =
      endpointHandler .tags okCollab ⟨some "http://img"⟩ ∧
    callUrl (RemoteCall.analyzeImage "http://img" ["Tags"] none) = "http://img" :=
  ⟨(C8_validator_forwards_request_unchanged (fun _ => true) okCollab .tags
      ⟨some "http://img"⟩ rfl).1,
   (C8_validator_forwards_request_unchanged (fun _ => true) okCollab .tags
      ⟨some "http://img"⟩ rfl).2 "http://img" rfl
     (RemoteCall.analyzeImage "http://img" ["Tags"] none) (List.Mem.head _)⟩

/-- C9 as stated is false at a concrete input: both validation failure
kinds answer 400 with an `error` body, but the two responses differ
(distinct messages), so the kinds are distinguished in the response. -/
theorem C9_counterexample :
    (postVision isValidImageUrl okCollab .tags ⟨none⟩).1.status = 400 ∧
    (postVision isValidImageUrl okCollab .tags ⟨some "not a url"⟩).1.status = 400 ∧
    (postVision isValidImageUrl okCollab .tags ⟨none⟩).1 ≠
      (postVision isValidImageUrl okCollab .tags ⟨some "not a url"⟩).1 :=
  ⟨rfl, rfl, fun h => absurd (congrArg errorText h) (by decide)⟩

/-- C9 (amended): both validation failure kinds answer HTTP 400 with a
body of the shape `{ error: message }`; they share status and shape but
carry distinct messages (`Image URL is required` for missing or empty,
`Invalid URL format` for malformed). -/
theorem C9_validation_failures_shape (parseURL : String → Bool)
    (c : Collaborator) (e : Endpoint) (req : AnalysisRequest) :
    (req.imageUrl = none ∨ req.imageUrl = some "" →
      (postVision parseURL c e req).1 =
        ⟨400, some (.obj [("error", .str "Image URL is required")])⟩) ∧
    (∀ u, req.imageUrl = some u → u ≠ "" → parseURL u = false →
      (postVision parseURL c e req).1 =
        ⟨400, some (.obj [("error", .str "Invalid URL format")])⟩) := by
  obtain ⟨iu⟩ := req
  constructor
  · rintro (h | h) <;> simp only at h <;> subst h <;> rfl
  · intro u h hne hbad
    simp only at h
    subst h
    have hr : checkImageUrl parseURL ⟨some u⟩ =
        .reject ⟨400, some (.obj [("error", .str "Invalid URL format")])⟩ := by
      simp [checkImageUrl, hne, hbad]
    rw [postVision_reject _ _ _ _ _ hr]

/-- C9 (amended) instantiated: the two failure kinds on
`/api/vision/colors`. -/
theorem C9_validation_failures_shape_witness :
    (postVision isValidImageUrl emptyCollab .colors ⟨none⟩).1 =
      ⟨400, some (.obj [("error", .str "Image URL is required")])⟩ ∧
    (postVision isValidImageUrl emptyCollab .colors ⟨some "::"⟩).1 =
      ⟨400, some (.obj [("error", .str "Invalid URL format")])⟩ :=
  ⟨(C9_validation_failures_shape isValidImageUrl emptyCollab .colors
      ⟨none⟩).1 (Or.inl rfl),
   (C9_validation_failures_shape isValidImageUrl emptyCollab .colors
      ⟨some "::"⟩).2 "::" rfl (by decide) (by decide)⟩

/-- C10: for a valid URL, when the composite call succeeds with an object
result that lacks the projected field, the projection endpoints still
answer with success status 200 and an undefined (absent) body: the
projection is unguarded and no error branch runs. -/
theorem C10_missing_projection_still_succeeds (parseURL : String → Bool)
    (c : Collaborator) (u : String) (fs : List (String × Json))
    (hne : u ≠ "") (hok : parseURL u = true)
    (ht : c.call (.analyzeImage u ["Tags"] none) = .ok (.obj fs))
    (hf : c.call (.analyzeImage u ["Faces"] none) = .ok (.obj fs))
    (hc : c.call (.analyzeImage u ["Color"] none) = .ok (.obj fs))
    (htg : lookupLast fs "tags" = none)
    (hfc : lookupLast fs "faces" = none)
    (hcol : lookupLast fs "color" = none) :
    (postVision parseURL c .tags ⟨some u⟩).1 = ⟨200, none⟩ ∧
    (postVision parseURL c .faces ⟨some u⟩).1 = ⟨200, none⟩ ∧
    (postVision parseURL c .colors ⟨some u⟩).1 = ⟨200, none⟩ := by
  have hp := checkImageUrl_pass parseURL u hne hok
  refine ⟨?_, ?_, ?_⟩ <;> rw [postVision_pass _ _ _ _ hp]
  · simp [endpointHandler, tagsHandler, bodyUrl, ht, jsonGet, htg]
  · simp [endpointHandler, facesHandler, bodyUrl, hf, jsonGet, hfc]
  · simp [endpointHandler, colorsHandler, bodyUrl, hc, jsonGet, hcol]

/-- C10 instantiated: `emptyCollab` answers every call with `{}`. -/
theorem C10_missing_projection_still_succeeds_witness :
    (postVision (fun _ => true) emptyCollab .tags ⟨some "http://img"⟩).1 =
      ⟨200, none⟩ ∧
    (postVision (fun _ => true) emptyCollab .faces ⟨some "http://img"⟩).1 =
      ⟨200, none⟩ ∧
    (postVision (fun _ => true) emptyCollab .colors ⟨some "http://img"⟩).1 =
      ⟨200, none⟩ :=
  C10_missing_projection_still_succeeds (fun _ => true) emptyCollab
    "http://img" [] (by decide) rfl rfl rfl rfl rfl rfl rfl

end VisionApp
